import Mathlib

set_option linter.unusedVariables false

/-!
Verification of the wafer-slip FMU core (`src/FMU/wafer_slip_model.py`).

The Python model computes with IEEE-754 doubles; the embedding idealises
those as exact rationals (`ℚ`), with `math.pi` embedded as the exact
rational value of the double constant the interpreter uses.  All
operations of the `WaferSlipDynamics` class that the claims mention are
embedded as pure state transformers returning the mutated state together
with the boolean result the Python method returns.
-/

namespace WaferSlip

/-- Exact rational value of the IEEE-754 double `math.pi`
(`884279719003555 * 2⁻⁴⁸`) used by the Python source. -/
def mathPi : ℚ := 884279719003555 / 281474976710656

/-- The mutable attributes of a `WaferSlipDynamics` instance
(`wafer_slip_model.py`, `__init__`): inputs, outputs, parameters and the
derived internal state.  The class keeps no other mutable state; in
particular it records no lifecycle phase. -/
structure EngineState where
  angular_acceleration : ℚ
  vacuum_pressure : ℚ
  wafer_type : ℤ
  slip_factor : ℚ
  max_safe_acceleration : ℚ
  is_slipping : Bool
  mu_friction : ℚ
  safety_margin : ℚ
  wafer_mass : ℚ
  wafer_radius : ℚ
  chuck_area : ℚ
deriving DecidableEq, Repr

/-- Constant `chuck_radius = 0.030` (m), local to `_update_wafer_properties`. -/
def chuck_radius : ℚ := 30 / 1000

/-- Constant `wafer_density = 2330` (kg/m³), local to `_update_wafer_properties`. -/
def wafer_density : ℚ := 2330

/-- Constant `wafer_thickness = 0.5` (mm), local to `_update_wafer_properties`. -/
def wafer_thickness : ℚ := 1 / 2

/-- Method `WaferSlipDynamics._update_wafer_properties`: recomputes
`chuck_area`, `wafer_mass` and `wafer_radius` from the current
`wafer_type`; every branch including the default assigns mass and
radius, the 300mm pair for any unrecognized type. -/
def update_wafer_properties (s : EngineState) : EngineState :=
  let chuck_area := mathPi * chuck_radius ^ 2
  if s.wafer_type = 1 then
    { s with chuck_area := chuck_area,
             wafer_mass := wafer_density * (mathPi * (150/1000) ^ 2 * wafer_thickness * (1/1000)),
             wafer_radius := 150/1000 }
  else if s.wafer_type = 2 then
    { s with chuck_area := chuck_area,
             wafer_mass := wafer_density * (mathPi * (100/1000) ^ 2 * wafer_thickness * (1/1000)),
             wafer_radius := 100/1000 }
  else if s.wafer_type = 3 then
    { s with chuck_area := chuck_area,
             wafer_mass := wafer_density * (mathPi * (75/1000) ^ 2 * wafer_thickness * (1/1000)),
             wafer_radius := 75/1000 }
  else
    { s with chuck_area := chuck_area,
             wafer_mass := wafer_density * (mathPi * (150/1000) ^ 2 * wafer_thickness * (1/1000)),
             wafer_radius := 150/1000 }

/-- The pure (mass, radius) resolver implicit in
`_update_wafer_properties`: the value each branch assigns to
`(wafer_mass, wafer_radius)` as a function of `wafer_type` alone. -/
def resolve (wafer_type : ℤ) : ℚ × ℚ :=
  if wafer_type = 1 then
    (wafer_density * (mathPi * (150/1000) ^ 2 * wafer_thickness * (1/1000)), 150/1000)
  else if wafer_type = 2 then
    (wafer_density * (mathPi * (100/1000) ^ 2 * wafer_thickness * (1/1000)), 100/1000)
  else if wafer_type = 3 then
    (wafer_density * (mathPi * (75/1000) ^ 2 * wafer_thickness * (1/1000)), 75/1000)
  else
    (wafer_density * (mathPi * (150/1000) ^ 2 * wafer_thickness * (1/1000)), 150/1000)

/-- Method `WaferSlipDynamics.do_step`: refreshes the wafer properties,
then computes `friction_force`, `inertial_force`, `slip_factor` (guarded
division, sentinel `999.0`), `max_safe_acceleration` (guarded division,
else `0.0`) and `is_slipping`, mutating the three outputs in place and
returning `True` unconditionally.  `current_time` and `step_size` are
accepted and ignored, as in the source. -/
def do_step (s : EngineState) (current_time step_size : ℚ) : EngineState × Bool :=
  let s := update_wafer_properties s
  let pressure_diff := |s.vacuum_pressure|
  let friction_force := s.mu_friction * (pressure_diff * s.chuck_area)
  let inertial_force := s.wafer_mass * s.wafer_radius * |s.angular_acceleration|
  let slip_factor := if friction_force > 1/1000 then inertial_force / friction_force else 999
  let max_safe_acceleration :=
    if s.wafer_mass > 0 ∧ s.wafer_radius > 0 then friction_force / (s.wafer_mass * s.wafer_radius)
    else 0
  let is_slipping := decide (slip_factor > s.safety_margin)
  ({ s with slip_factor := slip_factor,
            max_safe_acceleration := max_safe_acceleration,
            is_slipping := is_slipping }, true)

/-- Method `WaferSlipDynamics.setup_experiment`: clears `slip_factor` and
`is_slipping`, touches nothing else, returns `True`. -/
def setup_experiment (s : EngineState) (start_time : ℚ)
    (stop_time tolerance : Option ℚ) : EngineState × Bool :=
  ({ s with slip_factor := 0, is_slipping := false }, true)

/-- Method `WaferSlipDynamics.enter_initialization_mode`: no state change,
returns `True`. -/
def enter_initialization_mode (s : EngineState) : EngineState × Bool := (s, true)

/-- Method `WaferSlipDynamics.exit_initialization_mode`: no state change,
returns `True`. -/
def exit_initialization_mode (s : EngineState) : EngineState × Bool := (s, true)

/-- Method `WaferSlipDynamics.terminate`: no state change, returns `True`. -/
def terminate (s : EngineState) : EngineState × Bool := (s, true)

/-- Method `WaferSlipDynamics.reset`: clears `slip_factor` and
`is_slipping`, touches nothing else, returns `True`. -/
def reset (s : EngineState) : EngineState × Bool :=
  ({ s with slip_factor := 0, is_slipping := false }, true)

/-- State of a freshly constructed `WaferSlipDynamics` instance
(`__init__`): default attribute values followed by the constructor's
call to `_update_wafer_properties`. -/
def initState : EngineState :=
  update_wafer_properties
    { angular_acceleration := 0, vacuum_pressure := 0, wafer_type := 1,
      slip_factor := 0, max_safe_acceleration := 0, is_slipping := false,
      mu_friction := 6/10, safety_margin := 85/100,
      wafer_mass := 125/1000, wafer_radius := 150/1000, chuck_area := 707/10000 }

/-- Friction force computed inside `do_step` once the wafer properties
have been refreshed: `mu * (|p| * chuck_area)` with the refreshed chuck
area `π·chuck_radius²`. -/
def frictionForce (mu p : ℚ) : ℚ := mu * (|p| * (mathPi * chuck_radius ^ 2))

/-- Inertial force computed inside `do_step`: `m · r · |α|`. -/
def inertialForce (mass radius a : ℚ) : ℚ := mass * radius * |a|

/-- Value `do_step` stores into `slip_factor`, as a function of the
pre-step inputs and parameters. -/
def slipFactorCalc (mu p mass radius a : ℚ) : ℚ :=
  if frictionForce mu p > 1/1000 then inertialForce mass radius a / frictionForce mu p else 999

/-- Value `do_step` stores into `max_safe_acceleration`, as a function of
the pre-step inputs and parameters. -/
def maxSafeCalc (mu p mass radius : ℚ) : ℚ :=
  if mass > 0 ∧ radius > 0 then frictionForce mu p / (mass * radius) else 0

/-- Division made fallible: `none` exactly where the Python `/` would
raise `ZeroDivisionError`. -/
def checkedDiv (a b : ℚ) : Option ℚ :=
  if b = 0 then none else some (a / b)

/-- Variant of `do_step` with every division replaced by `checkedDiv`:
the same computation as the source, but a division by zero aborts the
step with `none` instead of silently producing a value. -/
def do_step_checked (s : EngineState) (current_time step_size : ℚ) :
    Option (EngineState × Bool) :=
  let s := update_wafer_properties s
  let pressure_diff := |s.vacuum_pressure|
  let friction_force := s.mu_friction * (pressure_diff * s.chuck_area)
  let inertial_force := s.wafer_mass * s.wafer_radius * |s.angular_acceleration|
  match (if friction_force > 1/1000 then checkedDiv inertial_force friction_force
         else some 999) with
  | none => none
  | some slip_factor =>
    match (if s.wafer_mass > 0 ∧ s.wafer_radius > 0 then
             checkedDiv friction_force (s.wafer_mass * s.wafer_radius)
           else some 0) with
    | none => none
    | some max_safe_acceleration =>
      some ({ s with slip_factor := slip_factor,
                     max_safe_acceleration := max_safe_acceleration,
                     is_slipping := decide (slip_factor > s.safety_margin) }, true)

/-- Sample engine state with an unrecognized wafer type (`wafer_type = 7`),
used to instantiate the resolver fallback theorem. -/
def stateType7 : EngineState :=
  { angular_acceleration := 0, vacuum_pressure := 0, wafer_type := 7,
    slip_factor := 0, max_safe_acceleration := 0, is_slipping := false,
    mu_friction := 6/10, safety_margin := 85/100,
    wafer_mass := 125/1000, wafer_radius := 150/1000, chuck_area := 707/10000 }

/-- Helper: `_update_wafer_properties` rewrites exactly the three derived
fields, with the mass/radius pair given by the pure resolver. -/
theorem update_wafer_properties_eq (s : EngineState) :
    update_wafer_properties s =
      { s with chuck_area := mathPi * chuck_radius ^ 2,
               wafer_mass := (resolve s.wafer_type).1,
               wafer_radius := (resolve s.wafer_type).2 } := by
  simp only [update_wafer_properties, resolve]
  split_ifs <;> rfl

/-- Helper: the resolver returns strictly positive mass and radius for
every wafer type. -/
theorem resolve_pos (t : ℤ) : 0 < (resolve t).1 ∧ 0 < (resolve t).2 := by
  unfold resolve
  split_ifs <;> constructor <;> norm_num [mathPi, wafer_density, wafer_thickness]

/-- Helper: normal form of `do_step` — the successor state spelled out
field by field in terms of the pre-step state. -/
theorem do_step_eq (s : EngineState) (t h : ℚ) :
    do_step s t h =
      ({ s with chuck_area := mathPi * chuck_radius ^ 2,
                wafer_mass := (resolve s.wafer_type).1,
                wafer_radius := (resolve s.wafer_type).2,
                slip_factor := slipFactorCalc s.mu_friction s.vacuum_pressure
                  (resolve s.wafer_type).1 (resolve s.wafer_type).2 s.angular_acceleration,
                max_safe_acceleration := maxSafeCalc s.mu_friction s.vacuum_pressure
                  (resolve s.wafer_type).1 (resolve s.wafer_type).2,
                is_slipping := decide (slipFactorCalc s.mu_friction s.vacuum_pressure
                  (resolve s.wafer_type).1 (resolve s.wafer_type).2 s.angular_acceleration
                    > s.safety_margin) }, true) := by
  simp only [do_step, update_wafer_properties_eq, slipFactorCalc, maxSafeCalc,
    frictionForce, inertialForce]

/-- Helper: once the friction force clears the `1e-3` threshold at
pressure `p1 > 0`, it also clears it at any pressure `p2 ≥ p1`. -/
theorem friction_guard_mono (mu p1 p2 : ℚ) (hp1 : 0 < p1) (h12 : p1 ≤ p2)
    (hg1 : 1/1000 < frictionForce mu p1) : 1/1000 < frictionForce mu p2 := by
  have hA : (0:ℚ) < mathPi * chuck_radius ^ 2 := by norm_num [mathPi, chuck_radius]
  have habs1 : |p1| = p1 := abs_of_pos hp1
  have habs2 : |p2| = p2 := abs_of_pos (lt_of_lt_of_le hp1 h12)
  have hmu : 0 < mu := by
    by_contra hmu
    push_neg at hmu
    have : frictionForce mu p1 ≤ 0 := by
      unfold frictionForce
      rw [habs1]
      exact mul_nonpos_of_nonpos_of_nonneg hmu (mul_nonneg hp1.le hA.le)
    linarith
  have hF12 : frictionForce mu p1 ≤ frictionForce mu p2 := by
    unfold frictionForce
    rw [habs1, habs2]
    exact mul_le_mul_of_nonneg_left
      (mul_le_mul_of_nonneg_right h12 hA.le) hmu.le
  linarith

/-- C1: the source enforces no lifecycle ordering at all.  On a freshly
constructed engine, before `exit_initialization_mode` (or any other
lifecycle call) has been made, `do_step` silently computes: it returns
`True`, overwrites `slip_factor` (from its initial `0` to the sentinel
`999`) and sets `is_slipping`, instead of raising an ordering error as
the claim requires. -/
theorem step_before_initialization_exit_computes :
    initState.slip_factor = 0 ∧
    (do_step initState 0 (1/10)).2 = true ∧
    (do_step initState 0 (1/10)).1.slip_factor = 999 ∧
    (do_step initState 0 (1/10)).1.is_slipping = true := by
  norm_num [do_step, update_wafer_properties, initState, mathPi, chuck_radius,
    wafer_density, wafer_thickness]

/-- C2: after one call to `do_step`, from any engine state, the outputs
satisfy exactly the specified formulas: `slip_factor` is the guarded
quotient of inertial by friction force with sentinel `999`,
`max_safe_acceleration` is the guarded quotient of friction force by
`mass * radius` with default `0`, `is_slipping` is the strict comparison
of the new slip factor with `safety_margin`, and the mass/radius pair is
recomputed from the current `wafer_type` by the resolver. -/
theorem do_step_output_formulas (s : EngineState) (t h : ℚ) :
    (do_step s t h).1.slip_factor =
      (if s.mu_friction * (|s.vacuum_pressure| * (mathPi * chuck_radius ^ 2)) > 1/1000
       then (resolve s.wafer_type).1 * (resolve s.wafer_type).2 * |s.angular_acceleration| /
            (s.mu_friction * (|s.vacuum_pressure| * (mathPi * chuck_radius ^ 2)))
       else 999) ∧
    (do_step s t h).1.max_safe_acceleration =
      (if (resolve s.wafer_type).1 > 0 ∧ (resolve s.wafer_type).2 > 0
       then s.mu_friction * (|s.vacuum_pressure| * (mathPi * chuck_radius ^ 2)) /
            ((resolve s.wafer_type).1 * (resolve s.wafer_type).2)
       else 0) ∧
    ((do_step s t h).1.is_slipping = true ↔
      (do_step s t h).1.slip_factor > s.safety_margin) := by
  rw [do_step_eq]
  simp [slipFactorCalc, maxSafeCalc, frictionForce, inertialForce]

/-- C3 counterexample: `slip_factor` is not non-increasing in the vacuum
pressure.  With the 300mm wafer, default parameters and
`angular_acceleration = 100`, the pressures `p1 = 1/2` and `p2 = 3/5`
satisfy `0 < p1 ≤ p2`, yet the slip factor at `p2` (≈ 1213, a genuine
quotient just above the `1e-3` friction threshold) exceeds the slip
factor at `p1` (the sentinel `999`). -/
theorem slip_factor_pressure_monotonicity_cex :
    ((0:ℚ) < 1/2 ∧ (1/2:ℚ) ≤ 3/5) ∧
    ¬ ((do_step { initState with vacuum_pressure := 3/5, angular_acceleration := 100 }
          0 (1/10)).1.slip_factor ≤
       (do_step { initState with vacuum_pressure := 1/2, angular_acceleration := 100 }
          0 (1/10)).1.slip_factor) := by
  constructor
  · norm_num
  · norm_num [do_step, update_wafer_properties, initState, mathPi, chuck_radius,
      wafer_density, wafer_thickness, abs_of_pos]

/-- C3 amended: holding everything but the pressure fixed, for
`0 < p1 ≤ p2` the slip factor at `p2` is at most the slip factor at
`p1`, provided the pair does not straddle the `1e-3` friction-force
threshold: either the friction force already exceeds the threshold at
`p1`, or it still fails it at `p2`.  Across the threshold the sentinel
`999` can be exceeded by a genuine quotient, as the counterexample
shows. -/
theorem slip_factor_pressure_antitone (s : EngineState) (p1 p2 t1 h1 t2 h2 : ℚ)
    (hp1 : 0 < p1) (h12 : p1 ≤ p2)
    (hreg : 1/1000 < frictionForce s.mu_friction p1 ∨
            ¬ 1/1000 < frictionForce s.mu_friction p2) :
    (do_step { s with vacuum_pressure := p2 } t2 h2).1.slip_factor ≤
    (do_step { s with vacuum_pressure := p1 } t1 h1).1.slip_factor := by
  rw [do_step_eq, do_step_eq]
  dsimp only
  obtain ⟨hm, hr⟩ := resolve_pos s.wafer_type
  unfold slipFactorCalc
  rcases hreg with hg1 | hg2
  · have hg2 : 1/1000 < frictionForce s.mu_friction p2 :=
      friction_guard_mono s.mu_friction p1 p2 hp1 h12 hg1
    rw [if_pos hg1, if_pos hg2]
    have hF1 : (0:ℚ) < frictionForce s.mu_friction p1 := lt_trans (by norm_num) hg1
    have hF12 : frictionForce s.mu_friction p1 ≤ frictionForce s.mu_friction p2 := by
      have habs1 : |p1| = p1 := abs_of_pos hp1
      have hA0 : (0:ℚ) < mathPi * chuck_radius ^ 2 := by norm_num [mathPi, chuck_radius]
      have hmu : 0 < s.mu_friction := by
        by_contra hmu
        push_neg at hmu
        have : frictionForce s.mu_friction p1 ≤ 0 := by
          unfold frictionForce
          rw [habs1]
          exact mul_nonpos_of_nonpos_of_nonneg hmu (mul_nonneg hp1.le hA0.le)
        linarith
      unfold frictionForce
      rw [habs1, abs_of_pos (lt_of_lt_of_le hp1 h12)]
      exact mul_le_mul_of_nonneg_left (mul_le_mul_of_nonneg_right h12 hA0.le) hmu.le
    have hI : 0 ≤ inertialForce (resolve s.wafer_type).1 (resolve s.wafer_type).2
        s.angular_acceleration := by
      unfold inertialForce
      positivity
    exact div_le_div_of_nonneg_left hI hF1 hF12
  · have hg1 : ¬ 1/1000 < frictionForce s.mu_friction p1 := fun hg1 =>
      hg2 (friction_guard_mono s.mu_friction p1 p2 hp1 h12 hg1)
    rw [if_neg hg1, if_neg hg2]

/-- C3 witness: the amended monotonicity instantiated on the fresh
engine at pressures `1 ≤ 2`, both above the friction threshold. -/
theorem slip_factor_pressure_antitone_witness :
    (do_step { initState with vacuum_pressure := 2 } 0 (1/10)).1.slip_factor ≤
    (do_step { initState with vacuum_pressure := 1 } 0 (1/10)).1.slip_factor :=
  slip_factor_pressure_antitone initState 1 2 0 (1/10) 0 (1/10) (by norm_num) (by norm_num)
    (Or.inl (by norm_num [frictionForce, mathPi, chuck_radius, initState,
      update_wafer_properties]))

/-- C4: for any `wafer_type` outside `{1, 2, 3}` the resolver silently
returns exactly the 300mm pair (`resolve 1`, radius `0.150`), and
`_update_wafer_properties` writes only the three derived fields
`wafer_mass`, `wafer_radius`, `chuck_area`, leaving every other field of
the engine untouched. -/
theorem resolver_fallback (s : EngineState)
    (ht : s.wafer_type ≠ 1 ∧ s.wafer_type ≠ 2 ∧ s.wafer_type ≠ 3) :
    resolve s.wafer_type = resolve 1 ∧
    (resolve s.wafer_type).2 = 150/1000 ∧
    update_wafer_properties s =
      { s with chuck_area := mathPi * chuck_radius ^ 2,
               wafer_mass := (resolve 1).1,
               wafer_radius := (resolve 1).2 } := by
  obtain ⟨h1, h2, h3⟩ := ht
  have hres : resolve s.wafer_type = resolve 1 := by
    unfold resolve
    simp [h1, h2, h3]
  refine ⟨hres, ?_, ?_⟩
  · rw [hres]
    norm_num [resolve]
  · rw [update_wafer_properties_eq, hres]

/-- C4 witness: the fallback instantiated at `wafer_type = 7`. -/
theorem resolver_fallback_witness :
    resolve stateType7.wafer_type = resolve 1 ∧
    (resolve stateType7.wafer_type).2 = 150/1000 ∧
    update_wafer_properties stateType7 =
      { stateType7 with chuck_area := mathPi * chuck_radius ^ 2,
                        wafer_mass := (resolve 1).1,
                        wafer_radius := (resolve 1).2 } :=
  resolver_fallback stateType7 (by norm_num [stateType7])

/-- C5: `do_step` is memoryless.  Stepping a second time with unchanged
inputs reproduces the state and success flag of the first step exactly,
and the result of a step is independent of the `current_time` and
`step_size` arguments. -/
theorem do_step_memoryless (s : EngineState) (t1 h1 t2 h2 : ℚ) :
    do_step (do_step s t1 h1).1 t2 h2 = do_step s t1 h1 ∧
    do_step s t1 h1 = do_step s t2 h2 := by
  constructor
  · rw [do_step_eq s t1 h1, do_step_eq]
  · rfl

/-- C6: holding the pressure, wafer type and parameters fixed,
`slip_factor` is non-decreasing in the magnitude of the angular
acceleration: `|a1| ≤ |a2|` implies the slip factor computed with `a1`
is at most the one computed with `a2`. -/
theorem slip_factor_acceleration_monotone (s : EngineState) (a1 a2 t1 h1 t2 h2 : ℚ)
    (hab : |a1| ≤ |a2|) :
    (do_step { s with angular_acceleration := a1 } t1 h1).1.slip_factor ≤
    (do_step { s with angular_acceleration := a2 } t2 h2).1.slip_factor := by
  rw [do_step_eq, do_step_eq]
  dsimp only
  obtain ⟨hm, hr⟩ := resolve_pos s.wafer_type
  unfold slipFactorCalc
  split_ifs with hg
  · have hF : (0:ℚ) < frictionForce s.mu_friction s.vacuum_pressure :=
      lt_trans (by norm_num) hg
    unfold inertialForce
    rw [div_le_div_iff_of_pos_right hF]
    exact mul_le_mul_of_nonneg_left hab (by positivity)
  · exact le_refl _

/-- C6 witness: the monotonicity instantiated on the fresh engine at
accelerations `1` and `2`. -/
theorem slip_factor_acceleration_monotone_witness :
    (do_step { initState with angular_acceleration := 1 } 0 (1/10)).1.slip_factor ≤
    (do_step { initState with angular_acceleration := 2 } 0 (1/10)).1.slip_factor :=
  slip_factor_acceleration_monotone initState 1 2 0 (1/10) 0 (1/10) (by norm_num)

/-- C7: `setup_experiment` and `reset` each clear `slip_factor` to `0`
and `is_slipping` to `false` and leave every other engine field — the
inputs, the parameters, `max_safe_acceleration` and the derived
mass/radius/chuck-area — exactly as it was. -/
theorem setup_experiment_reset_frame (s : EngineState) (start_time : ℚ)
    (stop_time tolerance : Option ℚ) :
    ((setup_experiment s start_time stop_time tolerance).1.slip_factor = 0 ∧
     (setup_experiment s start_time stop_time tolerance).1.is_slipping = false ∧
     (setup_experiment s start_time stop_time tolerance).1.angular_acceleration = s.angular_acceleration ∧
     (setup_experiment s start_time stop_time tolerance).1.vacuum_pressure = s.vacuum_pressure ∧
     (setup_experiment s start_time stop_time tolerance).1.wafer_type = s.wafer_type ∧
     (setup_experiment s start_time stop_time tolerance).1.mu_friction = s.mu_friction ∧
     (setup_experiment s start_time stop_time tolerance).1.safety_margin = s.safety_margin ∧
     (setup_experiment s start_time stop_time tolerance).1.max_safe_acceleration = s.max_safe_acceleration ∧
     (setup_experiment s start_time stop_time tolerance).1.wafer_mass = s.wafer_mass ∧
     (setup_experiment s start_time stop_time tolerance).1.wafer_radius = s.wafer_radius ∧
     (setup_experiment s start_time stop_time tolerance).1.chuck_area = s.chuck_area) ∧
    ((reset s).1.slip_factor = 0 ∧
     (reset s).1.is_slipping = false ∧
     (reset s).1.angular_acceleration = s.angular_acceleration ∧
     (reset s).1.vacuum_pressure = s.vacuum_pressure ∧
     (reset s).1.wafer_type = s.wafer_type ∧
     (reset s).1.mu_friction = s.mu_friction ∧
     (reset s).1.safety_margin = s.safety_margin ∧
     (reset s).1.max_safe_acceleration = s.max_safe_acceleration ∧
     (reset s).1.wafer_mass = s.wafer_mass ∧
     (reset s).1.wafer_radius = s.wafer_radius ∧
     (reset s).1.chuck_area = s.chuck_area) := by
  simp [setup_experiment, reset]

/-- C8: with a nonnegative friction coefficient, after any step the two
real-valued outputs are nonnegative, for arbitrary (also negative)
pressure and acceleration inputs. -/
theorem step_outputs_nonneg (s : EngineState) (t h : ℚ) (hmu : 0 ≤ s.mu_friction) :
    0 ≤ (do_step s t h).1.slip_factor ∧ 0 ≤ (do_step s t h).1.max_safe_acceleration := by
  rw [do_step_eq]
  dsimp only
  obtain ⟨hm, hr⟩ := resolve_pos s.wafer_type
  have hA : (0:ℚ) < mathPi * chuck_radius ^ 2 := by norm_num [mathPi, chuck_radius]
  constructor
  · unfold slipFactorCalc
    split_ifs with hg
    · have hF : (0:ℚ) < frictionForce s.mu_friction s.vacuum_pressure :=
        lt_trans (by norm_num) hg
      unfold inertialForce
      exact div_nonneg (by positivity) hF.le
    · norm_num
  · unfold maxSafeCalc
    split_ifs with hg
    · unfold frictionForce
      exact div_nonneg (mul_nonneg hmu (mul_nonneg (abs_nonneg _) hA.le))
        (mul_nonneg hm.le hr.le)
    · exact le_refl 0

/-- C8 witness: nonnegativity of the outputs on the fresh engine, whose
friction coefficient `0.6` is nonnegative. -/
theorem step_outputs_nonneg_witness :
    0 ≤ (do_step initState 0 (1/10)).1.slip_factor ∧
    0 ≤ (do_step initState 0 (1/10)).1.max_safe_acceleration :=
  step_outputs_nonneg initState 0 (1/10) (by norm_num [initState, update_wafer_properties])

/-- C9: `do_step` never fails arithmetically and always returns success:
with both divisions made fallible (`none` on a zero divisor), the step
still returns `some` of exactly the result of the real `do_step` — both
divisions are reached only under their guards (`friction_force > 1e-3`,
`mass > 0 ∧ radius > 0`), which exclude a zero divisor, and the success
flag is unconditionally `true`. -/
theorem do_step_checked_total (s : EngineState) (t h : ℚ) :
    do_step_checked s t h = some (do_step s t h) := by
  unfold do_step_checked do_step checkedDiv
  dsimp only
  split_ifs with h1 h2 h3 h4 <;> try rfl
  all_goals first
    | exact (mul_pos h3.1 h3.2).ne' h4
    | (rename_i hp hz; exact (mul_pos hp.1 hp.2).ne' hz)
    | (rw [h2] at h1; norm_num at h1)

/-- C10: the resolver yields strictly positive mass and radius for every
integer wafer type, so after any step the stored wafer mass and radius
are positive, the guard of the `max_safe_acceleration` division always
holds, its `0.0` fallback branch is unreachable, and
`max_safe_acceleration` unconditionally equals
`friction_force / (mass * radius)`. -/
theorem resolver_positive_max_safe_formula (s : EngineState) (t h : ℚ) (w : ℤ) :
    0 < (resolve w).1 ∧ 0 < (resolve w).2 ∧
    0 < (do_step s t h).1.wafer_mass ∧ 0 < (do_step s t h).1.wafer_radius ∧
    (do_step s t h).1.max_safe_acceleration =
      s.mu_friction * (|s.vacuum_pressure| * (mathPi * chuck_radius ^ 2)) /
        ((resolve s.wafer_type).1 * (resolve s.wafer_type).2) := by
  refine ⟨(resolve_pos w).1, (resolve_pos w).2, ?_, ?_, ?_⟩ <;>
    rw [do_step_eq]
  · exact (resolve_pos s.wafer_type).1
  · exact (resolve_pos s.wafer_type).2
  · simp [maxSafeCalc, frictionForce, (resolve_pos s.wafer_type).1,
      (resolve_pos s.wafer_type).2]

end WaferSlip
